import Mathlib

/-!
Verification development for the blue/green deployment log watcher
(`src/watcher/watcher.py`, class `LogWatcher`).

The Python source is shallowly embedded: strings are `List Char`, Python
floats are modelled as exact rationals `ℚ`, the mutable fields of the
`LogWatcher` object become an explicit state record `WState` threaded
through the methods, and the external HTTP delivery outcome is a
parameter of `send_slack_alert`.
-/

namespace Watcher

/-- Python strings are modelled as lists of characters. -/
abbrev Str := List Char

/-! ## Character classes used by the extraction patterns -/

/-- The character class of the pattern for upstream_status: digits and dash. -/
def isDigitOrDash (c : Char) : Bool := c.isDigit || c = '-'

/-- The character class of the pattern for request_time: digits and dot. -/
def isDigitOrDot (c : Char) : Bool := c.isDigit || c = '.'

/-- ASCII whitespace as recognised by Python (space, tab, newline, return,
vertical tab, form feed). -/
def isWs (c : Char) : Bool :=
  c = ' ' || c = '\t' || c = '\n' || c = '\r' || c = '\x0b' || c = '\x0c'

/-- Does the first character of the list satisfy the predicate? -/
def headSat (p : Char → Bool) : Str → Bool
  | [] => false
  | c :: _ => p c

/-! ## Regex search, specialised to the two pattern shapes of the source

`re.search` scans the line left to right and returns the leftmost match.
The source uses two shapes: `key="([^"]*)"` (double-quoted value) and
`key=([class]+)` (a nonempty run of characters of a class). -/

/-- Leftmost match of `key"..."`-style search: the key (which itself ends in
the opening quote) must occur, and a closing quote must follow; the capture
is everything up to the closing quote. -/
def searchQuotedTok (key : Str) : Str → Option Str
  | [] => none
  | c :: rest =>
    if key.isPrefixOf (c :: rest) && ((c :: rest).drop key.length).contains '"' then
      some (((c :: rest).drop key.length).takeWhile (fun d => d ≠ '"'))
    else
      searchQuotedTok key rest

/-- Leftmost match of `key=([class]+)`-style search: the key must occur,
immediately followed by at least one character of the class; the capture is
the maximal (greedy) run of class characters. -/
def searchClassTok (key : Str) (p : Char → Bool) : Str → Option Str
  | [] => none
  | c :: rest =>
    if key.isPrefixOf (c :: rest) && headSat p ((c :: rest).drop key.length) then
      some (((c :: rest).drop key.length).takeWhile p)
    else
      searchClassTok key p rest

/-- Embedding of `re.search(r'pool="([^"]*)"', line)` (capture only). -/
def pool_match (line : Str) : Option Str :=
  searchQuotedTok "pool=\"".data line

/-- Embedding of `re.search(r'release="([^"]*)"', line)` (capture only). -/
def release_match (line : Str) : Option Str :=
  searchQuotedTok "release=\"".data line

/-- Embedding of `re.search(r'upstream_status=([\d-]+)', line)` (capture only). -/
def upstream_status_match (line : Str) : Option Str :=
  searchClassTok "upstream_status=".data isDigitOrDash line

/-- Embedding of `re.search(r'upstream_addr=([^\s]+)', line)` (capture only). -/
def upstream_addr_match (line : Str) : Option Str :=
  searchClassTok "upstream_addr=".data (fun c => !(isWs c)) line

/-- Embedding of `re.search(r'request_time=([\d.]+)', line)` (capture only). -/
def request_time_match (line : Str) : Option Str :=
  searchClassTok "request_time=".data isDigitOrDot line

/-! ## Python float parsing of the request_time capture

The capture consists only of digits and dots. On such a string, Python's
`float` succeeds exactly when the string holds at most one dot and at least
one digit; otherwise it raises `ValueError` (modelled as `none`). -/

/-- Value of a run of decimal digits (most significant first). -/
def digitsVal (ds : Str) : Nat :=
  List.foldl (fun a c => 10 * a + (c.toNat - 48)) 0 ds

/-- Embedding of `float(s)` for `s` drawn from the class `[\d.]+`:
`none` models the `ValueError` raised on a malformed literal. -/
def pyFloat (s : Str) : Option ℚ :=
  if List.count '.' s ≤ 1 && s.any Char.isDigit then
    some ((digitsVal (s.takeWhile (fun c => c ≠ '.')) : ℚ) +
      (digitsVal ((s.dropWhile (fun c => c ≠ '.')).drop 1) : ℚ) /
        (10 : ℚ) ^ ((s.dropWhile (fun c => c ≠ '.')).drop 1).length)
  else
    none

/-- Embedding of `str.strip()` (used only for the emptiness test and the
`raw_line` field). -/
def strip (s : Str) : Str :=
  ((s.dropWhile isWs).reverse.dropWhile isWs).reverse

/-! ## The parsed record -/

/-- One parsed log entry, as built by `parse_log_line`. The `timestamp`
stands for the value of `datetime.now().isoformat()` at parse time and is
passed in as a parameter. -/
structure RequestRecord where
  pool : Str
  release : Str
  upstream_status : Option Str
  upstream_addr : Option Str
  request_time : ℚ
  timestamp : Nat
  raw_line : Str
deriving DecidableEq

/-- Embedding of `LogWatcher.parse_log_line`. The whole body runs under a
`try`/`except` that returns `None` on any exception; the only reachable
exception is the `ValueError` from `float` on a malformed `request_time`
capture, so that case yields `none` for the whole line. -/
def parse_log_line (line : Str) (now : Nat) : Option RequestRecord :=
  if strip line = [] then none
  else
    match pool_match line with
    | none => none
    | some pl =>
      match (match request_time_match line with
             | none => some (0 : ℚ)
             | some s => pyFloat s) with
      | none => none
      | some rt =>
        some { pool := pl
             , release := (release_match line).getD "unknown".data
             , upstream_status := upstream_status_match line
             , upstream_addr := upstream_addr_match line
             , request_time := rt
             , timestamp := now
             , raw_line := strip line }

/-! ## Alert events -/

/-- The failover event dict built by `check_failover`
(`type` is always `'failover'` and is carried by `AlertData`). -/
structure FailoverEvent where
  from_pool : Str
  to_pool : Str
  timestamp : Nat
deriving DecidableEq

/-- The high-error-rate alert dict built by `check_error_rate`
(`type` is always `'high_error_rate'` and is carried by `AlertData`). -/
structure ErrorRateEvent where
  error_rate : ℚ
  threshold : ℚ
  window_size : Nat
  error_count : Nat
  timestamp : Nat
deriving DecidableEq

/-- An alert dict together with its `type` discriminator. -/
inductive AlertData
  | failover (e : FailoverEvent)
  | high_error_rate (e : ErrorRateEvent)
deriving DecidableEq

/-- The `alert_data['type']` string of an alert. -/
def AlertData.alert_type : AlertData → Str
  | .failover _ => "failover".data
  | .high_error_rate _ => "high_error_rate".data

/-! ## Configuration and mutable state -/

/-- The configuration read once in `LogWatcher.__init__`: whether
`SLACK_WEBHOOK_URL` is set, the error threshold, window size, cooldown,
maintenance mode, and whether the requests library imported. -/
structure Config where
  slack_webhook : Bool
  error_threshold : ℚ
  window_size : Nat
  cooldown_sec : ℚ
  maintenance_mode : Bool
  requests_available : Bool
deriving DecidableEq

/-- A Python dict keyed by strings with rational values, as an
insertion-ordered association list (`self.last_alert_time`). -/
def dictGet (d : List (Str × ℚ)) (k : Str) : Option ℚ :=
  (d.find? (fun kv => kv.1 == k)).map Prod.snd

/-- Dict assignment `d[k] = v`: replace in place if the key is present,
append otherwise. -/
def dictSet : List (Str × ℚ) → Str → ℚ → List (Str × ℚ)
  | [], k, v => [(k, v)]
  | kv :: rest, k, v =>
    if kv.1 == k then (k, v) :: rest else kv :: dictSet rest k v

/-- The mutable detector/gate fields of the `LogWatcher` object:
`last_pool`, `current_pool`, `error_window` (a `deque(maxlen=window_size)`
of is-error booleans, oldest first), and `last_alert_time`. -/
structure WState where
  last_pool : Option Str
  current_pool : Option Str
  error_window : List Bool
  last_alert_time : List (Str × ℚ)
deriving DecidableEq

/-- The state right after `__init__`. -/
def init_state : WState :=
  { last_pool := none
  , current_pool := none
  , error_window := []
  , last_alert_time := [] }

/-- Python truthiness of an optional string: `None` and `""` are falsy. -/
def optStrTruthy : Option Str → Bool
  | none => false
  | some s => !s.isEmpty

/-! ## FailoverDetector: `check_failover` -/

/-- The fall-through tail of `check_failover`: update `current_pool`
tracking and set `last_pool`, raising nothing. -/
def trackPool (st : WState) (r : RequestRecord) : Option FailoverEvent × WState :=
  let st1 := if some r.pool ≠ st.current_pool
             then { st with current_pool := some r.pool } else st
  (none, { st1 with last_pool := some r.pool })

/-- Embedding of `LogWatcher.check_failover`. Returns the raised event (if
any) and the updated state. -/
def check_failover (st : WState) (r : RequestRecord) : Option FailoverEvent × WState :=
  if r.pool.isEmpty || r.pool = "unknown".data then (none, st)
  else
    match st.last_pool with
    | some p =>
      if !p.isEmpty && p ≠ r.pool then
        (some { from_pool := p, to_pool := r.pool, timestamp := r.timestamp }
        , { st with last_pool := some r.pool })
      else
        trackPool st r
    | none => trackPool st r

/-! ## ErrorRateDetector: `check_error_rate` -/

/-- `deque(maxlen=n).append`: append on the right, evicting from the left
when the deque is at capacity. -/
def dequeAppend (maxlen : Nat) (w : List Bool) (b : Bool) : List Bool :=
  (w ++ [b]).drop (w.length + 1 - maxlen)

/-- `s.startswith('5')`. -/
def startsWith5 : Str → Bool
  | [] => false
  | c :: _ => c = '5'

/-- Round half to even at integer precision, as Python's `round` does. -/
def roundHalfEven (x : ℚ) : ℤ :=
  if Int.fract x < 1 / 2 then ⌊x⌋
  else if Int.fract x > 1 / 2 then ⌊x⌋ + 1
  else if ⌊x⌋ % 2 = 0 then ⌊x⌋ else ⌊x⌋ + 1

/-- `round(x, 2)`. -/
def pyRound2 (x : ℚ) : ℚ := (roundHalfEven (x * 100) : ℚ) / 100

/-- Embedding of `LogWatcher.check_error_rate`. Returns the raised alert
(if any) and the updated state. -/
def check_error_rate (cfg : Config) (st : WState) (r : RequestRecord) :
    Option ErrorRateEvent × WState :=
  match r.upstream_status with
  | none => (none, st)
  | some s =>
    if s.isEmpty then (none, st)
    else
      let is_error := startsWith5 s
      let w := dequeAppend cfg.window_size st.error_window is_error
      let st1 := { st with error_window := w }
      if w.length < cfg.window_size then (none, st1)
      else
        let error_count := w.count true
        let error_rate : ℚ := ((error_count : ℚ) / (w.length : ℚ)) * 100
        if error_rate > cfg.error_threshold then
          (some { error_rate := pyRound2 error_rate
                , threshold := cfg.error_threshold
                , window_size := w.length
                , error_count := error_count
                , timestamp := r.timestamp }
          , st1)
        else (none, st1)

/-! ## AlertGate: `can_send_alert` -/

/-- Embedding of `LogWatcher.can_send_alert`: `now` is the value of
`time.time()` at the call. Returns the verdict and the updated state. -/
def can_send_alert (cfg : Config) (st : WState) (now : ℚ) (alert_type : Str) :
    Bool × WState :=
  let last_time := (dictGet st.last_alert_time alert_type).getD 0
  if now - last_time < cfg.cooldown_sec then (false, st)
  else (true, { st with last_alert_time := dictSet st.last_alert_time alert_type now })

/-! ## `send_slack_alert` -/

/-- Outcome of the `requests.post` call to the webhook: HTTP 200, a non-200
status, or an exception during the attempt. -/
inductive Delivery
  | ok200
  | badStatus
  | exn
deriving DecidableEq

/-- Result of `send_slack_alert`: the returned boolean, whether the
dispatch to the sink was attempted (the `requests.post` call was reached),
and the updated state. -/
structure SendResult where
  ok : Bool
  dispatched : Bool
  state : WState
deriving DecidableEq

/-- Embedding of `LogWatcher.send_slack_alert`: guards in source order
(webhook configured, maintenance mode, requests available, cooldown gate),
then the dispatch whose outcome `d` is supplied by the environment. -/
def send_slack_alert (cfg : Config) (st : WState) (now : ℚ) (a : AlertData)
    (d : Delivery) : SendResult :=
  if !cfg.slack_webhook then { ok := false, dispatched := false, state := st }
  else if cfg.maintenance_mode then { ok := false, dispatched := false, state := st }
  else if !cfg.requests_available then { ok := false, dispatched := false, state := st }
  else
    match can_send_alert cfg st now a.alert_type with
    | (false, st1) => { ok := false, dispatched := false, state := st1 }
    | (true, st1) =>
      match d with
      | .ok200 => { ok := true, dispatched := true, state := st1 }
      | .badStatus => { ok := false, dispatched := true, state := st1 }
      | .exn => { ok := false, dispatched := true, state := st1 }

/-! ## MonitorEngine: the `watch_logs` loop body for one accepted record -/

/-- Embedding of the per-record part of the `watch_logs` loop (source lines
352-361): the failover check with its send, then, when the record has a
truthy upstream status, the error-rate check with its send. Returns the
final state and the alerts dispatched to the sink, in dispatch order.
`deliv` gives the delivery outcome per alert type. -/
def process_record (cfg : Config) (st : WState) (now : ℚ) (r : RequestRecord)
    (deliv : Str → Delivery) : WState × List AlertData :=
  let fo := check_failover st r
  let afterFail : WState × List AlertData :=
    match fo.1 with
    | some e =>
      let res := send_slack_alert cfg fo.2 now (.failover e) (deliv "failover".data)
      (res.state, if res.dispatched then [AlertData.failover e] else [])
    | none => (fo.2, [])
  if optStrTruthy r.upstream_status then
    let er := check_error_rate cfg afterFail.1 r
    match er.1 with
    | some e2 =>
      let res2 := send_slack_alert cfg er.2 now (.high_error_rate e2)
        (deliv "high_error_rate".data)
      (res2.state, afterFail.2 ++ (if res2.dispatched then [AlertData.high_error_rate e2] else []))
    | none => (er.2, afterFail.2)
  else afterFail

/-! ## Folding the detectors over observation sequences -/

/-- A record carrying only a pool (the other fields as a pool-only line
would produce them), used to drive `check_failover` over pool sequences. -/
def mkPoolRec (p : Str) : RequestRecord :=
  { pool := p, release := "unknown".data, upstream_status := none
  , upstream_addr := none, request_time := 0, timestamp := 0, raw_line := [] }

/-- Feed a sequence of pools to `check_failover`, collecting the raised
events in order. -/
def observe_pools : WState → List Str → WState × List FailoverEvent
  | st, [] => (st, [])
  | st, p :: rest =>
    let step := check_failover st (mkPoolRec p)
    let tail := observe_pools step.2 rest
    (tail.1, step.1.toList ++ tail.2)

/-- The from/to pairs of the failover events raised on a pool sequence fed
from the initial state. -/
def run_pools (ps : List Str) : List (Str × Str) :=
  ((observe_pools init_state ps).2).map (fun e => (e.from_pool, e.to_pool))

/-- A record carrying only an upstream status, used to drive
`check_error_rate` over status sequences. -/
def mkStatusRec (s : Option Str) : RequestRecord :=
  { pool := "blue".data, release := "unknown".data, upstream_status := s
  , upstream_addr := none, request_time := 0, timestamp := 0, raw_line := [] }

/-- Feed a sequence of (optional) upstream statuses to `check_error_rate`,
collecting the raised alerts in order. -/
def observe_statuses (cfg : Config) :
    WState → List (Option Str) → WState × List ErrorRateEvent
  | st, [] => (st, [])
  | st, s :: rest =>
    let step := check_error_rate cfg st (mkStatusRec s)
    let tail := observe_statuses cfg step.2 rest
    (tail.1, step.1.toList ++ tail.2)

/-! ## Concrete configurations used in scenarios -/

/-- A configuration with window size 5 and a 20% threshold, webhook
configured, no maintenance mode, cooldown 300s. -/
def cfg5 : Config :=
  { slack_webhook := true, error_threshold := 20, window_size := 5
  , cooldown_sec := 300, maintenance_mode := false, requests_available := true }

/-! ## Helper lemmas -/

theorem dictGet_dictSet_self (d : List (Str × ℚ)) (k : Str) (v : ℚ) :
    dictGet (dictSet d k v) k = some v := by
  induction d with
  | nil => simp [dictGet, dictSet, List.find?]
  | cons kv rest ih =>
    by_cases h : kv.1 == k
    · simp [dictSet, h, dictGet, List.find?]
    · simp only [dictSet, h, if_false, Bool.false_eq_true]
      simpa [dictGet, List.find?, h] using ih

theorem check_error_rate_falsy (cfg : Config) (st : WState) (r : RequestRecord)
    (h : optStrTruthy r.upstream_status = false) :
    check_error_rate cfg st r = (none, st) := by
  rcases hs : r.upstream_status with _ | s
  · simp [check_error_rate, hs]
  · rw [hs] at h
    simp only [optStrTruthy, Bool.not_eq_false'] at h
    simp [check_error_rate, hs, h]

theorem check_error_rate_state (cfg : Config) (st : WState) (r : RequestRecord)
    (s : Str) (hs : r.upstream_status = some s) (hne : s.isEmpty = false) :
    (check_error_rate cfg st r).2
      = { st with error_window :=
            dequeAppend cfg.window_size st.error_window (startsWith5 s) } := by
  simp only [check_error_rate, hs, hne, Bool.false_eq_true, if_false]
  split
  · rfl
  · split <;> rfl

theorem check_error_rate_some_truthy (cfg : Config) (st : WState) (r : RequestRecord)
    (e : ErrorRateEvent) (h : (check_error_rate cfg st r).1 = some e) :
    optStrTruthy r.upstream_status = true := by
  by_contra hc
  rw [check_error_rate_falsy cfg st r (by simpa using hc)] at h
  exact Option.noConfusion h

theorem check_error_rate_event_only_window (cfg : Config) (st st' : WState)
    (r : RequestRecord) (hw : st.error_window = st'.error_window) :
    (check_error_rate cfg st r).1 = (check_error_rate cfg st' r).1 := by
  rcases hs : r.upstream_status with _ | s
  · simp [check_error_rate, hs]
  · simp only [check_error_rate, hs, hw]
    split
    · rfl
    · split
      · rfl
      · split <;> rfl

theorem can_send_alert_frame (cfg : Config) (st : WState) (now : ℚ) (k : Str) :
    (can_send_alert cfg st now k).2.last_pool = st.last_pool ∧
    (can_send_alert cfg st now k).2.current_pool = st.current_pool ∧
    (can_send_alert cfg st now k).2.error_window = st.error_window := by
  simp only [can_send_alert]
  split <;> simp

theorem send_slack_alert_frame (cfg : Config) (st : WState) (now : ℚ)
    (a : AlertData) (d : Delivery) :
    (send_slack_alert cfg st now a d).state.last_pool = st.last_pool ∧
    (send_slack_alert cfg st now a d).state.current_pool = st.current_pool ∧
    (send_slack_alert cfg st now a d).state.error_window = st.error_window := by
  have hc := can_send_alert_frame cfg st now a.alert_type
  unfold send_slack_alert
  split
  · simp
  · split
    · simp
    · split
      · simp
      · rcases hcs : can_send_alert cfg st now a.alert_type with ⟨b, st1⟩
        rw [hcs] at hc
        cases b
        · simpa using hc
        · cases d <;> simpa using hc

theorem check_failover_frame (st : WState) (r : RequestRecord) :
    (check_failover st r).2.error_window = st.error_window ∧
    (check_failover st r).2.last_alert_time = st.last_alert_time := by
  unfold check_failover trackPool
  split
  · simp
  · split
    · split
      · simp
      · split <;> simp
    · split <;> simp

theorem isEmpty_false_of_ne_nil {l : Str} (h : l ≠ []) : l.isEmpty = false := by
  cases l
  · exact absurd rfl h
  · rfl

theorem pool_cond_false (r : RequestRecord) (h1 : r.pool ≠ [])
    (h2 : r.pool ≠ "unknown".data) :
    (r.pool.isEmpty || decide (r.pool = "unknown".data)) = false := by
  rw [isEmpty_false_of_ne_nil h1]
  simp [h2]

theorem check_failover_ignored (st : WState) (r : RequestRecord)
    (h : r.pool = [] ∨ r.pool = "unknown".data) :
    check_failover st r = (none, st) := by
  rcases h with h | h <;> simp [check_failover, h]

theorem check_failover_last_pool (st : WState) (r : RequestRecord)
    (h1 : r.pool ≠ []) (h2 : r.pool ≠ "unknown".data) :
    (check_failover st r).2.last_pool = some r.pool := by
  cases hl : st.last_pool with
  | none =>
    simp [check_failover, pool_cond_false r h1 h2, hl, trackPool]
  | some p =>
    simp only [check_failover, pool_cond_false r h1 h2, Bool.false_eq_true, if_false, hl]
    split
    · rfl
    · simp [trackPool]

theorem check_failover_event (st : WState) (r : RequestRecord) (p : Str)
    (hl : st.last_pool = some p) (hp : p ≠ [])
    (h1 : r.pool ≠ []) (h2 : r.pool ≠ "unknown".data) :
    (check_failover st r).1 =
      if p = r.pool then none
      else some { from_pool := p, to_pool := r.pool, timestamp := r.timestamp } := by
  simp only [check_failover, pool_cond_false r h1 h2, Bool.false_eq_true, if_false, hl]
  by_cases hpq : p = r.pool
  · simp [hpq, trackPool]
  · simp [hpq, isEmpty_false_of_ne_nil hp]

theorem check_failover_first (st : WState) (r : RequestRecord)
    (hl : st.last_pool = none) (h1 : r.pool ≠ []) (h2 : r.pool ≠ "unknown".data) :
    (check_failover st r).1 = none := by
  simp only [check_failover, pool_cond_false r h1 h2, Bool.false_eq_true, if_false, hl]
  simp [trackPool]

/-! ## Claim theorems -/

/-- C1: `check_failover` raises a failover event with from-pool `p` and
to-pool the observed pool exactly when the stored last pool is some
nonempty `p`, `p` differs from the observed pool, and the observed pool is
nonempty and not "unknown"; an empty or "unknown" observation returns no
event and leaves the whole state (in particular the stored last pool)
unchanged; otherwise the stored last pool is updated to the observed pool
and nothing is raised. The stored last pool is never the empty string
(invariant conjunct), so the nonemptiness proviso on `p` holds on every
reachable state. Feeding pools blue, blue, green, green, blue yields
exactly the events blue to green then green to blue; feeding blue,
unknown, green yields exactly the event blue to green. -/
theorem failover_detector_correct :
    (∀ st r, (r.pool = [] ∨ r.pool = "unknown".data) → check_failover st r = (none, st)) ∧
    (∀ st r p, st.last_pool = some p → p ≠ [] → r.pool ≠ [] → r.pool ≠ "unknown".data →
      ((check_failover st r).1 =
        (if p = r.pool then none
         else some { from_pool := p, to_pool := r.pool, timestamp := r.timestamp })) ∧
      (check_failover st r).2.last_pool = some r.pool) ∧
    (∀ st r, st.last_pool = none → r.pool ≠ [] → r.pool ≠ "unknown".data →
      (check_failover st r).1 = none ∧ (check_failover st r).2.last_pool = some r.pool) ∧
    (∀ st r, st.last_pool ≠ some [] → (check_failover st r).2.last_pool ≠ some []) ∧
    run_pools ["blue".data, "blue".data, "green".data, "green".data, "blue".data]
      = [("blue".data, "green".data), ("green".data, "blue".data)] ∧
    run_pools ["blue".data, "unknown".data, "green".data]
      = [("blue".data, "green".data)] := by
  refine ⟨check_failover_ignored, ?_, ?_, ?_, by decide, by decide⟩
  · intro st r p hl hp h1 h2
    exact ⟨check_failover_event st r p hl hp h1 h2, check_failover_last_pool st r h1 h2⟩
  · intro st r hl h1 h2
    exact ⟨check_failover_first st r hl h1 h2, check_failover_last_pool st r h1 h2⟩
  · intro st r h
    by_cases hi : r.pool = [] ∨ r.pool = "unknown".data
    · rw [check_failover_ignored st r hi]
      exact h
    · push_neg at hi
      rw [check_failover_last_pool st r hi.1 hi.2]
      intro hc
      exact hi.1 (Option.some.injEq _ _ ▸ hc)

theorem dequeAppend_of_lt {n : Nat} {w : List Bool} (b : Bool) (h : w.length < n) :
    dequeAppend n w b = w ++ [b] := by
  unfold dequeAppend
  rw [Nat.sub_eq_zero_of_le h, List.drop_zero]

theorem check_error_rate_below_cap (cfg : Config) (st : WState) (r : RequestRecord)
    (s : Str) (hs : r.upstream_status = some s) (hne : s.isEmpty = false)
    (hlt : st.error_window.length + 1 < cfg.window_size) :
    check_error_rate cfg st r
      = (none, { st with error_window := st.error_window ++ [startsWith5 s] }) := by
  simp only [check_error_rate, hs, hne, Bool.false_eq_true, if_false]
  rw [dequeAppend_of_lt _ (Nat.lt_of_succ_lt hlt)]
  have hlen : (st.error_window ++ [startsWith5 s]).length < cfg.window_size := by
    simpa using hlt
  rw [if_pos hlen]

theorem optStrTruthy_true {s : Option Str} (h : optStrTruthy s = true) :
    ∃ str, s = some str ∧ str.isEmpty = false := by
  cases s with
  | none => exact absurd h (by simp [optStrTruthy])
  | some str =>
    refine ⟨str, rfl, ?_⟩
    simpa [optStrTruthy] using h

theorem observe_statuses_below_cap (cfg : Config) (obs : List (Option Str)) :
    ∀ st : WState, st.error_window.length + obs.countP optStrTruthy < cfg.window_size →
      (observe_statuses cfg st obs).2 = [] ∧
      (observe_statuses cfg st obs).1.error_window.length
        = st.error_window.length + obs.countP optStrTruthy := by
  induction obs with
  | nil =>
    intro st h
    simp [observe_statuses]
  | cons s rest ih =>
    intro st h
    cases ht : optStrTruthy s with
    | false =>
      rw [List.countP_cons, ht] at h
      simp only [Bool.false_eq_true, if_false, Nat.add_zero] at h
      have hstep : check_error_rate cfg st (mkStatusRec s) = (none, st) :=
        check_error_rate_falsy cfg st (mkStatusRec s) ht
      have ihr := ih st h
      simp only [observe_statuses, hstep, Option.toList_none, List.nil_append,
        List.countP_cons, ht, Bool.false_eq_true, if_false, Nat.add_zero]
      exact ihr
    | true =>
      obtain ⟨str, hstr, hne⟩ := optStrTruthy_true ht
      rw [List.countP_cons, ht] at h
      simp only [eq_self_iff_true, if_true] at h
      have hstep : check_error_rate cfg st (mkStatusRec s)
          = (none, { st with error_window := st.error_window ++ [startsWith5 str] }) :=
        check_error_rate_below_cap cfg st (mkStatusRec s) str (by simp [mkStatusRec, hstr])
          hne (by omega)
      have ihr := ih { st with error_window := st.error_window ++ [startsWith5 str] }
        (by simp only [List.length_append, List.length_cons, List.length_nil]; omega)
      simp only [observe_statuses, hstep, Option.toList_none, List.nil_append,
        List.countP_cons, ht, eq_self_iff_true, if_true]
      refine ⟨ihr.1, ?_⟩
      rw [ihr.2]
      simp only [List.length_append, List.length_cons, List.length_nil]
      omega

/-- C6: the error-rate detector never raises while fewer than `windowSize`
statuses have entered the window: for every observation sequence from the
initial state in which the number of present (truthy) statuses is below
the window size, every observe call returns no event. -/
theorem no_alert_before_window_full (cfg : Config) (obs : List (Option Str))
    (h : obs.countP optStrTruthy < cfg.window_size) :
    (observe_statuses cfg init_state obs).2 = [] :=
  (observe_statuses_below_cap cfg obs init_state (by simpa [init_state] using h)).1

theorem no_alert_before_window_full_witness :
    (observe_statuses cfg5 init_state [some "500".data, some "500".data]).2 = [] :=
  no_alert_before_window_full cfg5 [some "500".data, some "500".data] (by decide)

theorem failover_detector_correct_witness :
    ((check_failover { init_state with last_pool := some "blue".data }
        (mkPoolRec "green".data)).1 =
      some { from_pool := "blue".data, to_pool := "green".data, timestamp := 0 }) ∧
    (check_failover { init_state with last_pool := some "blue".data }
        (mkPoolRec "green".data)).2.last_pool = some "green".data := by
  have h := failover_detector_correct.2.1
    { init_state with last_pool := some "blue".data } (mkPoolRec "green".data)
    "blue".data rfl (by decide) (by decide) (by decide)
  refine ⟨?_, h.2⟩
  rw [h.1]
  decide

/-- C9: When the record's upstream status is absent, `check_error_rate` is
a no-op: it raises nothing and leaves the state (in particular the sliding
window) unchanged, so such requests enter neither the numerator nor the
denominator of the error rate. -/
theorem absent_status_noop (cfg : Config) (st : WState) (r : RequestRecord)
    (h : r.upstream_status = none) :
    check_error_rate cfg st r = (none, st) := by
  simp [check_error_rate, h]

theorem absent_status_noop_witness :
    check_error_rate cfg5 init_state (mkStatusRec none) = (none, init_state) :=
  absent_status_noop cfg5 init_state (mkStatusRec none) rfl

/-- C2: With window size 5 and threshold 20, feeding statuses
[200,200,200,200,200] raises nothing; one more 500 (window
[200,200,200,200,500], 20% error) still raises nothing because the rate
must strictly exceed the threshold; a second consecutive 500 (oldest 200
evicted, window [200,200,200,500,500]) raises exactly one high-error-rate
event with error count 2, window size 5 and error rate 40. -/
theorem error_rate_scenario_w5_t20 :
    (observe_statuses cfg5 init_state (List.replicate 5 (some "200".data))).2 = [] ∧
    (observe_statuses cfg5 init_state
        (List.replicate 5 (some "200".data) ++ [some "500".data])).2 = [] ∧
    (observe_statuses cfg5 init_state
        (List.replicate 5 (some "200".data) ++ [some "500".data])).1.error_window
      = [false, false, false, false, true] ∧
    (observe_statuses cfg5 init_state
        (List.replicate 5 (some "200".data) ++ [some "500".data, some "500".data])).2
      = [{ error_rate := 40, threshold := 20, window_size := 5
         , error_count := 2, timestamp := 0 }] ∧
    (observe_statuses cfg5 init_state
        (List.replicate 5 (some "200".data) ++ [some "500".data, some "500".data])).1.error_window
      = [false, false, false, true, true] := by
  with_unfolding_all decide

/-- C4: `can_send_alert`: when a previous approved send of the kind is
recorded, any attempt strictly within the cooldown returns false without
touching the state, and any attempt at or past the cooldown returns true
and records the new send time. From a fresh state (no recorded send, so
the source compares against the default 0), a first attempt at epoch time
at least the cooldown succeeds, a second attempt within the cooldown of
the first fails with no mutation, and a third attempt once the cooldown
has elapsed since the first succeeds. -/
theorem alert_cooldown_gate (cfg : Config) (st : WState) (k : Str)
    (now t t1 t2 t3 : ℚ) :
    (dictGet st.last_alert_time k = some t → now - t < cfg.cooldown_sec →
      can_send_alert cfg st now k = (false, st)) ∧
    (dictGet st.last_alert_time k = some t → cfg.cooldown_sec ≤ now - t →
      can_send_alert cfg st now k
        = (true, { st with last_alert_time := dictSet st.last_alert_time k now })) ∧
    (dictGet st.last_alert_time k = none → cfg.cooldown_sec ≤ now →
      can_send_alert cfg st now k
        = (true, { st with last_alert_time := dictSet st.last_alert_time k now })) ∧
    (dictGet st.last_alert_time k = none → cfg.cooldown_sec ≤ t1 →
      t2 - t1 < cfg.cooldown_sec → cfg.cooldown_sec ≤ t3 - t1 →
      (can_send_alert cfg st t1 k).1 = true ∧
      can_send_alert cfg (can_send_alert cfg st t1 k).2 t2 k
        = (false, (can_send_alert cfg st t1 k).2) ∧
      (can_send_alert cfg (can_send_alert cfg st t1 k).2 t3 k).1 = true) := by
  refine ⟨?_, ?_, ?_, ?_⟩
  · intro hg hlt
    simp only [can_send_alert, hg, Option.getD_some]
    rw [if_pos hlt]
  · intro hg hge
    simp only [can_send_alert, hg, Option.getD_some]
    rw [if_neg (not_lt.mpr hge)]
  · intro hg hge
    simp only [can_send_alert, hg, Option.getD_none]
    rw [if_neg (not_lt.mpr (by linarith))]
  · intro hg h1 h2 h3
    have e1 : can_send_alert cfg st t1 k
        = (true, { st with last_alert_time := dictSet st.last_alert_time k t1 }) := by
      simp only [can_send_alert, hg, Option.getD_none]
      rw [if_neg (not_lt.mpr (by linarith))]
    have hg1 : dictGet (dictSet st.last_alert_time k t1) k = some t1 :=
      dictGet_dictSet_self _ _ _
    refine ⟨by rw [e1], ?_, ?_⟩
    · rw [e1]
      simp only [can_send_alert, hg1, Option.getD_some]
      rw [if_pos (by linarith)]
    · rw [e1]
      simp only [can_send_alert, hg1, Option.getD_some]
      rw [if_neg (not_lt.mpr (by linarith))]

theorem alert_cooldown_gate_witness :
    (can_send_alert cfg5 init_state 1000 "failover".data).1 = true ∧
    can_send_alert cfg5 (can_send_alert cfg5 init_state 1000 "failover".data).2
        1100 "failover".data
      = (false, (can_send_alert cfg5 init_state 1000 "failover".data).2) ∧
    (can_send_alert cfg5 (can_send_alert cfg5 init_state 1000 "failover".data).2
        1400 "failover".data).1 = true :=
  (alert_cooldown_gate cfg5 init_state "failover".data 0 0 1000 1100 1400).2.2.2
    rfl (by norm_num [cfg5]) (by norm_num [cfg5]) (by norm_num [cfg5])

/-- C5: With maintenance mode on, every `send_slack_alert` attempt is
rejected and the state — in particular `last_alert_time` — is untouched:
the maintenance check comes before the cooldown bookkeeping, so a
suppressed alert neither consumes nor resets the cooldown timer. -/
theorem maintenance_mode_suppresses (cfg : Config) (st : WState) (now : ℚ)
    (a : AlertData) (d : Delivery) (h : cfg.maintenance_mode = true) :
    send_slack_alert cfg st now a d
      = { ok := false, dispatched := false, state := st } := by
  rcases hw : cfg.slack_webhook <;> simp [send_slack_alert, h, hw]

theorem maintenance_mode_suppresses_witness :
    send_slack_alert { cfg5 with maintenance_mode := true } init_state 1000
        (.failover { from_pool := "blue".data, to_pool := "green".data, timestamp := 0 })
        .ok200
      = { ok := false, dispatched := false, state := init_state } :=
  maintenance_mode_suppresses { cfg5 with maintenance_mode := true } init_state 1000
    (.failover { from_pool := "blue".data, to_pool := "green".data, timestamp := 0 })
    .ok200 rfl

theorem send_slack_alert_eq (cfg : Config) (st : WState) (now : ℚ) (a : AlertData)
    (d : Delivery) :
    send_slack_alert cfg st now a d =
      if cfg.slack_webhook = false ∨ cfg.maintenance_mode = true ∨
          cfg.requests_available = false
      then { ok := false, dispatched := false, state := st }
      else
        { ok := (can_send_alert cfg st now a.alert_type).1 && decide (d = Delivery.ok200)
        , dispatched := (can_send_alert cfg st now a.alert_type).1
        , state := (can_send_alert cfg st now a.alert_type).2 } := by
  cases hw : cfg.slack_webhook with
  | false => simp [send_slack_alert, hw]
  | true =>
    cases hm : cfg.maintenance_mode with
    | true => simp [send_slack_alert, hw, hm]
    | false =>
      cases hr : cfg.requests_available with
      | false => simp [send_slack_alert, hw, hm, hr]
      | true =>
        rcases hc : can_send_alert cfg st now a.alert_type with ⟨b, st1⟩
        cases b <;> cases d <;> simp [send_slack_alert, hw, hm, hr, hc]

theorem can_send_alert_true (cfg : Config) (st : WState) (now : ℚ) (k : Str)
    (h : (can_send_alert cfg st now k).1 = true) :
    (can_send_alert cfg st now k).2
      = { st with last_alert_time := dictSet st.last_alert_time k now } := by
  by_cases hc : now - (dictGet st.last_alert_time k).getD 0 < cfg.cooldown_sec
  · simp [can_send_alert, hc] at h
  · simp [can_send_alert, hc]

theorem send_dispatched_true (cfg : Config) (st : WState) (now : ℚ) (a : AlertData)
    (d : Delivery) (h : (send_slack_alert cfg st now a d).dispatched = true) :
    (send_slack_alert cfg st now a d).state
      = { st with last_alert_time := dictSet st.last_alert_time a.alert_type now } ∧
    (send_slack_alert cfg st now a d).ok = decide (d = Delivery.ok200) := by
  by_cases hcond : cfg.slack_webhook = false ∨ cfg.maintenance_mode = true ∨
      cfg.requests_available = false
  · rw [send_slack_alert_eq, if_pos hcond] at h
    exact absurd h (by simp)
  · rw [send_slack_alert_eq, if_neg hcond] at h
    have h' : (can_send_alert cfg st now a.alert_type).1 = true := h
    rw [send_slack_alert_eq, if_neg hcond]
    constructor
    · exact can_send_alert_true cfg st now a.alert_type h'
    · show ((can_send_alert cfg st now a.alert_type).1 && decide (d = Delivery.ok200))
        = decide (d = Delivery.ok200)
      rw [h', Bool.true_and]

/-- The line of the C3 counterexample: it has a pool token and a malformed
request_time token that the extraction pattern matches. -/
def badLine : Str :=
  "pool=\"blue\" release=\"v1\" upstream_status=200 request_time=1.2.3".data

/-- C3 counterexample: the line has a pool token and its request_time
capture is the malformed literal 1.2.3, yet `parse_log_line` returns no
record at all, not a record with request time 0 as the claim states. -/
theorem parse_malformed_rt_counterexample :
    pool_match badLine = some "blue".data ∧
    request_time_match badLine = some "1.2.3".data ∧
    pyFloat "1.2.3".data = none ∧
    parse_log_line badLine 0 = none := by
  with_unfolding_all decide

/-- C3 amended: when the request_time capture is a malformed numeric
literal, the ValueError raised by `float` is caught by the line-level
handler and `parse_log_line` returns none for the whole line, discarding
the record; the request time degrades to 0 only when the request_time
token is absent from the line. -/
theorem parse_malformed_rt_rejected (line : Str) (now : Nat) (s pl : Str) :
    (request_time_match line = some s → pyFloat s = none →
      parse_log_line line now = none) ∧
    (strip line ≠ [] → pool_match line = some pl → request_time_match line = none →
      parse_log_line line now
        = some { pool := pl
               , release := (release_match line).getD "unknown".data
               , upstream_status := upstream_status_match line
               , upstream_addr := upstream_addr_match line
               , request_time := 0
               , timestamp := now
               , raw_line := strip line }) := by
  constructor
  · intro hm hf
    by_cases hstrip : strip line = []
    · simp [parse_log_line, hstrip]
    · cases hp : pool_match line with
      | none => simp [parse_log_line, hstrip, hp]
      | some pl2 => simp [parse_log_line, hstrip, hp, hm, hf]
  · intro hstrip hp hm
    simp [parse_log_line, hstrip, hp, hm]

theorem parse_malformed_rt_rejected_witness :
    parse_log_line badLine 0 = none ∧
    parse_log_line "pool=\"blue\"".data 0
      = some { pool := "blue".data, release := "unknown".data
             , upstream_status := none, upstream_addr := none
             , request_time := 0, timestamp := 0
             , raw_line := "pool=\"blue\"".data } := by
  constructor
  · exact (parse_malformed_rt_rejected badLine 0 "1.2.3".data []).1
      (by decide) (by decide)
  · have h := (parse_malformed_rt_rejected "pool=\"blue\"".data 0 [] "blue".data).2
      (by decide) (by decide) (by decide)
    rw [h]
    with_unfolding_all decide

theorem process_record_deliv_indep (cfg : Config) (st : WState) (now : ℚ)
    (r : RequestRecord) (dl1 dl2 : Str → Delivery) :
    process_record cfg st now r dl1 = process_record cfg st now r dl2 := by
  have hsend : ∀ (st' : WState) (a : AlertData) (x y : Delivery),
      (send_slack_alert cfg st' now a x).state = (send_slack_alert cfg st' now a y).state ∧
      (send_slack_alert cfg st' now a x).dispatched
        = (send_slack_alert cfg st' now a y).dispatched := by
    intro st' a x y
    rw [send_slack_alert_eq, send_slack_alert_eq]
    split <;> simp
  simp only [process_record]
  cases hf : (check_failover st r).1 with
  | none =>
    cases htr : optStrTruthy r.upstream_status with
    | false => simp
    | true =>
      simp only [if_true]
      cases he : (check_error_rate cfg (check_failover st r).2 r).1 with
      | none => simp
      | some e2 =>
        obtain ⟨hs2, hd2⟩ := hsend (check_error_rate cfg (check_failover st r).2 r).2
          (.high_error_rate e2) (dl1 "high_error_rate".data) (dl2 "high_error_rate".data)
        simp [hs2, hd2]
  | some e =>
    obtain ⟨hs1, hd1⟩ := hsend (check_failover st r).2 (.failover e)
      (dl1 "failover".data) (dl2 "failover".data)
    cases htr : optStrTruthy r.upstream_status with
    | false => simp [hs1, hd1]
    | true =>
      simp only [if_true, hs1, hd1]
      cases he : (check_error_rate cfg
          (send_slack_alert cfg (check_failover st r).2 now (.failover e)
            (dl2 "failover".data)).state r).1 with
      | none => simp
      | some e2 =>
        obtain ⟨hs2, hd2⟩ := hsend (check_error_rate cfg
            (send_slack_alert cfg (check_failover st r).2 now (.failover e)
              (dl2 "failover".data)).state r).2
          (.high_error_rate e2) (dl1 "high_error_rate".data) (dl2 "high_error_rate".data)
        simp [hs2, hd2]

/-- C8: A failed delivery (non-200 response or exception) mutates no
detector or gate state beyond what approval already did and is not
retried: the send's resulting state and dispatch decision are independent
of the delivery outcome, the send never touches the detector fields, a
dispatched send with a failed delivery returns false, the cooldown slot
was already consumed at approval time (last sent of the kind equals the
approval time), so a further attempt of the same kind within the cooldown
is rejected; and the whole per-record pass, state and dispatch order
included, is independent of delivery outcomes, so processing continues
identically. -/
theorem delivery_failure_semantics (cfg : Config) (st : WState) (now now2 : ℚ)
    (a : AlertData) (d d1 d2 : Delivery) (r : RequestRecord)
    (dl1 dl2 : Str → Delivery) :
    ((send_slack_alert cfg st now a d1).state
        = (send_slack_alert cfg st now a d2).state ∧
      (send_slack_alert cfg st now a d1).dispatched
        = (send_slack_alert cfg st now a d2).dispatched) ∧
    ((send_slack_alert cfg st now a d).state.last_pool = st.last_pool ∧
     (send_slack_alert cfg st now a d).state.current_pool = st.current_pool ∧
     (send_slack_alert cfg st now a d).state.error_window = st.error_window) ∧
    ((send_slack_alert cfg st now a d).dispatched = true → d ≠ Delivery.ok200 →
      (send_slack_alert cfg st now a d).ok = false) ∧
    ((send_slack_alert cfg st now a d).dispatched = true →
      dictGet (send_slack_alert cfg st now a d).state.last_alert_time a.alert_type
        = some now ∧
      (now2 - now < cfg.cooldown_sec →
        can_send_alert cfg (send_slack_alert cfg st now a d).state now2 a.alert_type
          = (false, (send_slack_alert cfg st now a d).state))) ∧
    process_record cfg st now r dl1 = process_record cfg st now r dl2 := by
  refine ⟨?_, send_slack_alert_frame cfg st now a d, ?_, ?_,
    process_record_deliv_indep cfg st now r dl1 dl2⟩
  · rw [send_slack_alert_eq, send_slack_alert_eq]
    split <;> simp
  · intro hd hne
    rw [(send_dispatched_true cfg st now a d hd).2]
    simp [hne]
  · intro hd
    have hst := (send_dispatched_true cfg st now a d hd).1
    rw [hst]
    refine ⟨dictGet_dictSet_self _ _ _, ?_⟩
    intro hlt
    simp only [can_send_alert, dictGet_dictSet_self, Option.getD_some]
    rw [if_pos hlt]

theorem delivery_failure_semantics_witness :
    ((send_slack_alert cfg5 init_state 1000
        (.failover { from_pool := "blue".data, to_pool := "green".data, timestamp := 0 })
        Delivery.badStatus).ok = false) ∧
    dictGet (send_slack_alert cfg5 init_state 1000
        (.failover { from_pool := "blue".data, to_pool := "green".data, timestamp := 0 })
        Delivery.badStatus).state.last_alert_time "failover".data = some 1000 ∧
    can_send_alert cfg5 (send_slack_alert cfg5 init_state 1000
        (.failover { from_pool := "blue".data, to_pool := "green".data, timestamp := 0 })
        Delivery.badStatus).state 1100 "failover".data
      = (false, (send_slack_alert cfg5 init_state 1000
          (.failover { from_pool := "blue".data, to_pool := "green".data, timestamp := 0 })
          Delivery.badStatus).state) := by
  have h := delivery_failure_semantics cfg5 init_state 1000 1100
    (.failover { from_pool := "blue".data, to_pool := "green".data, timestamp := 0 })
    Delivery.badStatus Delivery.ok200 Delivery.badStatus
    (mkPoolRec "blue".data) (fun _ => Delivery.ok200) (fun _ => Delivery.ok200)
  have hdisp : (send_slack_alert cfg5 init_state 1000
      (.failover { from_pool := "blue".data, to_pool := "green".data, timestamp := 0 })
      Delivery.badStatus).dispatched = true := by
    with_unfolding_all decide
  have h4 := h.2.2.2.1 hdisp
  exact ⟨h.2.2.1 hdisp (by decide), h4.1, h4.2 (by norm_num [cfg5])⟩

theorem check_error_rate_frame (cfg : Config) (st : WState) (r : RequestRecord) :
    (check_error_rate cfg st r).2.last_pool = st.last_pool ∧
    (check_error_rate cfg st r).2.current_pool = st.current_pool ∧
    (check_error_rate cfg st r).2.last_alert_time = st.last_alert_time := by
  rcases hs : r.upstream_status with _ | s
  · simp [check_error_rate, hs]
  · by_cases he : s.isEmpty = true
    · simp [check_error_rate, hs, he]
    · rw [check_error_rate_state cfg st r s hs (by simpa using he)]
      exact ⟨rfl, rfl, rfl⟩

theorem check_error_rate_window_congr (cfg : Config) (stA stB : WState)
    (r : RequestRecord) (hw : stA.error_window = stB.error_window) :
    (check_error_rate cfg stA r).2.error_window
      = (check_error_rate cfg stB r).2.error_window := by
  rcases hs : r.upstream_status with _ | s
  · simp [check_error_rate, hs, hw]
  · by_cases he : s.isEmpty = true
    · simp [check_error_rate, hs, he, hw]
    · rw [check_error_rate_state cfg stA r s hs (by simpa using he),
        check_error_rate_state cfg stB r s hs (by simpa using he)]
      simp [hw]

/-- C7: The loop body runs the failover check and the error-rate check
independently on every accepted record: the final last/current pool fields
are exactly those produced by `check_failover` on the incoming state, and
the final error window is exactly the one produced by `check_error_rate`
on the incoming state, whatever the other stage or the sends did. When
both checks raise and both sends are dispatched, the dispatch order is the
failover alert first, then the error-rate alert. -/
theorem record_pipeline_both_checks (cfg : Config) (st : WState) (now : ℚ)
    (r : RequestRecord) (deliv : Str → Delivery) :
    ((process_record cfg st now r deliv).1.last_pool
        = (check_failover st r).2.last_pool ∧
     (process_record cfg st now r deliv).1.current_pool
        = (check_failover st r).2.current_pool ∧
     (process_record cfg st now r deliv).1.error_window
        = (check_error_rate cfg st r).2.error_window) ∧
    (∀ e1 e2,
      (check_failover st r).1 = some e1 →
      (send_slack_alert cfg (check_failover st r).2 now (.failover e1)
          (deliv "failover".data)).dispatched = true →
      (check_error_rate cfg
          (send_slack_alert cfg (check_failover st r).2 now (.failover e1)
            (deliv "failover".data)).state r).1 = some e2 →
      (send_slack_alert cfg
          (check_error_rate cfg
            (send_slack_alert cfg (check_failover st r).2 now (.failover e1)
              (deliv "failover".data)).state r).2 now (.high_error_rate e2)
          (deliv "high_error_rate".data)).dispatched = true →
      (process_record cfg st now r deliv).2
        = [AlertData.failover e1, AlertData.high_error_rate e2]) := by
  constructor
  · obtain ⟨hfw, hfa⟩ := check_failover_frame st r
    simp only [process_record]
    cases hf : (check_failover st r).1 with
    | none =>
      cases htr : optStrTruthy r.upstream_status with
      | false =>
        refine ⟨rfl, rfl, ?_⟩
        rw [check_error_rate_falsy cfg st r htr]
        exact hfw
      | true =>
        simp only [if_true]
        obtain ⟨he1, he2, _⟩ := check_error_rate_frame cfg (check_failover st r).2 r
        cases he : (check_error_rate cfg (check_failover st r).2 r).1 with
        | none =>
          exact ⟨he1, he2, check_error_rate_window_congr cfg _ st r hfw⟩
        | some e2 =>
          obtain ⟨hs1, hs2, hs3⟩ := send_slack_alert_frame cfg
            (check_error_rate cfg (check_failover st r).2 r).2 now
            (.high_error_rate e2) (deliv "high_error_rate".data)
          exact ⟨hs1.trans he1, hs2.trans he2,
            hs3.trans (check_error_rate_window_congr cfg _ st r hfw)⟩
    | some e =>
      obtain ⟨hp1, hp2, hp3⟩ := send_slack_alert_frame cfg (check_failover st r).2 now
        (.failover e) (deliv "failover".data)
      cases htr : optStrTruthy r.upstream_status with
      | false =>
        refine ⟨hp1, hp2, ?_⟩
        rw [check_error_rate_falsy cfg st r htr]
        exact hp3.trans hfw
      | true =>
        simp only [if_true]
        obtain ⟨he1, he2, _⟩ := check_error_rate_frame cfg
          (send_slack_alert cfg (check_failover st r).2 now (.failover e)
            (deliv "failover".data)).state r
        cases he : (check_error_rate cfg
            (send_slack_alert cfg (check_failover st r).2 now (.failover e)
              (deliv "failover".data)).state r).1 with
        | none =>
          exact ⟨he1.trans hp1, he2.trans hp2,
            check_error_rate_window_congr cfg _ st r (hp3.trans hfw)⟩
        | some e2 =>
          obtain ⟨hs1, hs2, hs3⟩ := send_slack_alert_frame cfg
            (check_error_rate cfg
              (send_slack_alert cfg (check_failover st r).2 now (.failover e)
                (deliv "failover".data)).state r).2 now
            (.high_error_rate e2) (deliv "high_error_rate".data)
          exact ⟨hs1.trans (he1.trans hp1), hs2.trans (he2.trans hp2),
            hs3.trans (check_error_rate_window_congr cfg _ st r (hp3.trans hfw))⟩
  · intro e1 e2 h1 h2 h3 h4
    have htr : optStrTruthy r.upstream_status = true :=
      check_error_rate_some_truthy cfg _ r e2 h3
    simp only [process_record, h1, htr, if_true, h2, h3, h4]
    simp

/-- State for the C7 witness scenario: last pool blue, window one sample
short of full with two errors in it, fresh cooldowns. -/
def c7st : WState :=
  { last_pool := some "blue".data, current_pool := some "blue".data
  , error_window := [true, true, false, false], last_alert_time := [] }

/-- Record for the C7 witness scenario: pool green (a failover from blue)
carrying a 500 upstream status that fills the window to 3 errors of 5. -/
def c7rec : RequestRecord :=
  { pool := "green".data, release := "r1".data
  , upstream_status := some "500".data, upstream_addr := none
  , request_time := 0, timestamp := 7, raw_line := [] }

theorem record_pipeline_both_checks_witness :
    (process_record cfg5 c7st 1000 c7rec (fun _ => Delivery.ok200)).2
      = [AlertData.failover
           { from_pool := "blue".data, to_pool := "green".data, timestamp := 7 }
        , AlertData.high_error_rate
           { error_rate := 60, threshold := 20, window_size := 5
           , error_count := 3, timestamp := 7 }] :=
  (record_pipeline_both_checks cfg5 c7st 1000 c7rec (fun _ => Delivery.ok200)).2
    { from_pool := "blue".data, to_pool := "green".data, timestamp := 7 }
    { error_rate := 60, threshold := 20, window_size := 5
    , error_count := 3, timestamp := 7 }
    (by decide)
    (by with_unfolding_all decide)
    (by with_unfolding_all decide)
    (by with_unfolding_all decide)

theorem count_true_dequeAppend_false (n : Nat) (w : List Bool) :
    List.count true (dequeAppend n w false) ≤ List.count true w := by
  unfold dequeAppend
  calc List.count true ((w ++ [false]).drop (w.length + 1 - n))
      ≤ List.count true (w ++ [false]) :=
        List.Sublist.count_le (List.drop_sublist _ _) true
    _ = List.count true w := by simp

/-- C10: A lone-dash upstream status token is captured by the extraction
pattern, so `parse_log_line` returns a record whose upstream status is the
present string "-"; `check_error_rate` then pushes it into the sliding
window as a non-error sample — the window gains the sample (denominator)
while the error count (numerator) does not increase. -/
theorem dash_status_counted_nonerror (line : Str) (now : Nat) (pl : Str)
    (cfg : Config) (st : WState) (r : RequestRecord) :
    (strip line ≠ [] → pool_match line = some pl →
      upstream_status_match line = some "-".data →
      (∀ s, request_time_match line = some s → pyFloat s ≠ none) →
      ∃ rec, parse_log_line line now = some rec ∧
        rec.upstream_status = some "-".data) ∧
    (r.upstream_status = some "-".data →
      (check_error_rate cfg st r).2.error_window
        = dequeAppend cfg.window_size st.error_window false ∧
      List.count true (check_error_rate cfg st r).2.error_window
        ≤ List.count true st.error_window) := by
  constructor
  · intro hstrip hp hu hrt
    cases hm : request_time_match line with
    | none =>
      refine ⟨{ pool := pl, release := (release_match line).getD "unknown".data
              , upstream_status := upstream_status_match line
              , upstream_addr := upstream_addr_match line, request_time := 0
              , timestamp := now, raw_line := strip line }, ?_, ?_⟩
      · simp [parse_log_line, hstrip, hp, hm]
      · simpa using hu
    | some s =>
      obtain ⟨v, hv⟩ := Option.ne_none_iff_exists'.mp (hrt s hm)
      refine ⟨{ pool := pl, release := (release_match line).getD "unknown".data
              , upstream_status := upstream_status_match line
              , upstream_addr := upstream_addr_match line, request_time := v
              , timestamp := now, raw_line := strip line }, ?_, ?_⟩
      · simp [parse_log_line, hstrip, hp, hm, hv]
      · simpa using hu
  · intro hs
    have hst := check_error_rate_state cfg st r "-".data hs rfl
    have hfalse : startsWith5 "-".data = false := rfl
    rw [hfalse] at hst
    rw [hst]
    exact ⟨rfl, count_true_dequeAppend_false _ _⟩

/-- The line of the C10 witness: a pool token and a lone-dash upstream
status token. -/
def c10line : Str := "pool=\"blue\" upstream_status=- request_time=0.5".data

theorem dash_status_counted_nonerror_witness :
    (∃ rec, parse_log_line c10line 0 = some rec ∧
      rec.upstream_status = some "-".data) ∧
    (check_error_rate cfg5 init_state (mkStatusRec (some "-".data))).2.error_window
      = dequeAppend 5 [] false := by
  constructor
  · exact (dash_status_counted_nonerror c10line 0 "blue".data cfg5 init_state
      (mkStatusRec (some "-".data))).1 (by decide) (by decide) (by decide)
      (fun s hs => by
        rw [(by decide : request_time_match c10line = some "0.5".data)] at hs
        injection hs with h
        subst h
        with_unfolding_all decide)
  · exact ((dash_status_counted_nonerror c10line 0 "blue".data cfg5 init_state
      (mkStatusRec (some "-".data))).2 rfl).1

end Watcher
